/-
Verification of the JobGuard durability pipeline: a shallow embedding of the
persistence queries, the repository's transactional stuck-job harvest, the
adaptive reconciliation scheduler, the circuit breaker, the reconciler
construction, the adapter submit/validation/sanitization/re-enqueue paths and
the coordinator lifecycle guards, with theorems settling the specification's
claims about them.

Sources embedded (TypeScript):
  src/persistence/queries.ts        (QUERIES.*)
  src/persistence/repository.ts     (JobRepository.getAndMarkStuckJobs, ...)
  src/reconciliation/scheduler.ts   (AdaptiveScheduler)
  src/utils/circuit-breaker.ts      (CircuitBreaker)
  src/reconciliation/reconciler.ts  (Reconciler constructor)
  src/adapters/base.adapter.ts      (validateJobData, handleJobCreated,
                                     sanitizeErrorMessage)
  src/adapters/{bull,bullmq}.adapter.ts, bee adapter (reEnqueueJob)
  src/jobguard.ts                   (JobGuard lifecycle guards)

Timestamps are modelled as integers (milliseconds), SQL NOW() is an explicit
`now` parameter, and the `updated_at` trigger of schema/001_initial.sql is
folded into every row update.
-/
import Mathlib

namespace JobGuard

/-- Job status enum, from src/types/job.ts `JobStatus`. -/
inductive Status where
  | pending
  | processing
  | completed
  | failed
  | stuck
  | dead
deriving DecidableEq

/-- Queue families, from src/types/job.ts (`queue_type`). -/
inductive QueueType where
  | bull
  | bullmq
  | bee
deriving DecidableEq

/-- A row of the jobguard_jobs table (src/types/job.ts `JobRecord`,
schema/001_initial.sql). `id` is the generated primary key, timestamps are
integer milliseconds, optional columns are `Option`. The JSONB payload is
kept as its serialized string. -/
structure Row where
  id : Nat
  queue_name : String
  queue_type : QueueType
  job_id : String
  job_name : Option String
  data : String
  status : Status
  attempts : Nat
  max_attempts : Nat
  error_message : Option String
  created_at : Int
  updated_at : Int
  started_at : Option Int
  completed_at : Option Int
  last_heartbeat : Option Int
deriving DecidableEq

/-- The jobguard_jobs table: a list of rows. -/
abbrev Table := List Row

/-- Terminal statuses: 'completed', 'failed', 'dead' (spec 4.9, used in the
queries' `status NOT IN ('completed','failed','dead')` predicates). -/
def isTerminal : Status → Bool
  | .completed => true
  | .failed => true
  | .dead => true
  | _ => false

/-- The business-key predicate `queue_name = $ AND queue_type = $ AND
job_id = $` shared by the single-row UPDATE/SELECT queries. -/
def keyMatches (q : String) (qt : QueueType) (jid : String) (r : Row) : Bool :=
  r.queue_name == q && r.queue_type == qt && r.job_id == jid

/-- COALESCE(last_heartbeat, updated_at): the liveness signal used by
QUERIES.GET_STUCK_JOBS. -/
def liveness (r : Row) : Int :=
  match r.last_heartbeat with
  | some h => h
  | none => r.updated_at

/-- QUERIES.INSERT_JOB: INSERT .. ON CONFLICT (queue_name, queue_type, job_id)
WHERE status NOT IN terminal DO UPDATE SET data, status, attempts, updated_at
WHERE jobguard_jobs.status NOT IN terminal. The partial unique index only
covers non-terminal rows, so a conflict happens exactly when a non-terminal
row with the same key exists; otherwise a fresh row is appended. The caller
(JobRepository.createJob) passes status = 'pending' and attempts = 0, so the
EXCLUDED values are fixed to those here. -/
def insertConflictRow (q : String) (qt : QueueType) (jid : String)
    (payload : String) (now : Int) (r : Row) : Row :=
  if keyMatches q qt jid r && !isTerminal r.status then
    { r with data := payload, status := .pending, attempts := 0,
             updated_at := now }
  else r

/-- QUERIES.INSERT_JOB, table level: conflict (a non-terminal row with the
same key exists) updates that row, otherwise a fresh row is appended. -/
def insertJobTable (q : String) (qt : QueueType) (jid : String)
    (jname : Option String) (payload : String) (maxA : Nat) (newId : Nat)
    (now : Int) (t : Table) : Table :=
  if t.any (fun r => keyMatches q qt jid r && !isTerminal r.status) then
    t.map (insertConflictRow q qt jid payload now)
  else
    t ++ [{ id := newId, queue_name := q, queue_type := qt, job_id := jid,
            job_name := jname, data := payload, status := .pending,
            attempts := 0, max_attempts := maxA, error_message := none,
            created_at := now, updated_at := now, started_at := none,
            completed_at := none, last_heartbeat := none }]

/-- The SET clause of QUERIES.UPDATE_JOB_STATUS applied to one row:
status, updated_at = NOW(), started_at / last_heartbeat when entering
'processing', completed_at on terminal statuses. -/
def applyStatusSet (st : Status) (now : Int) (r : Row) : Row :=
  { r with status := st,
           updated_at := now,
           started_at := if st == .processing then some now else r.started_at,
           last_heartbeat :=
             if st == .processing then some now else r.last_heartbeat,
           completed_at :=
             if isTerminal st then some now else r.completed_at }

/-- QUERIES.UPDATE_JOB_STATUS: updates every row matching the business key
(the WHERE clause has no status guard). -/
def updateJobStatusTable (q : String) (qt : QueueType) (jid : String)
    (st : Status) (now : Int) (t : Table) : Table :=
  t.map (fun r => if keyMatches q qt jid r then applyStatusSet st now r else r)

/-- The SET clause of QUERIES.UPDATE_JOB_ERROR applied to one row:
attempts = attempts + 1, error_message, status = 'dead' when
attempts + 1 >= max_attempts else 'failed', updated_at, completed_at on the
dead branch. -/
def applyErrorSet (err : String) (now : Int) (r : Row) : Row :=
  { r with attempts := r.attempts + 1,
           error_message := some err,
           status := if r.attempts + 1 ≥ r.max_attempts then .dead else .failed,
           updated_at := now,
           completed_at :=
             if r.attempts + 1 ≥ r.max_attempts then some now
             else r.completed_at }

/-- QUERIES.UPDATE_JOB_ERROR: updates every row matching the business key
(no status guard in the WHERE clause). -/
def updateJobErrorTable (q : String) (qt : QueueType) (jid : String)
    (err : String) (now : Int) (t : Table) : Table :=
  t.map (fun r => if keyMatches q qt jid r then applyErrorSet err now r else r)

/-- QUERIES.UPDATE_HEARTBEAT on one row: SET last_heartbeat = NOW() only when
the key matches and status = 'processing' (the updated_at bump comes from the
schema trigger). -/
def heartbeatRow (q : String) (qt : QueueType) (jid : String) (now : Int)
    (r : Row) : Row :=
  if keyMatches q qt jid r && r.status == .processing then
    { r with last_heartbeat := some now, updated_at := now }
  else r

/-- QUERIES.UPDATE_HEARTBEAT, table level. -/
def updateHeartbeatTable (q : String) (qt : QueueType) (jid : String)
    (now : Int) (t : Table) : Table :=
  t.map (heartbeatRow q qt jid now)

/-- Ordering relation of GET_STUCK_JOBS: ORDER BY
COALESCE(last_heartbeat, updated_at) ASC. -/
def livenessLE (a b : Row) : Prop := liveness a ≤ liveness b

instance : DecidableRel livenessLE :=
  fun a b => Int.decLe (liveness a) (liveness b)

/-- QUERIES.GET_STUCK_JOBS: SELECT rows of the queue with status =
'processing' whose liveness signal is older than NOW() minus the threshold,
ordered oldest first, LIMIT batchSize. (FOR UPDATE SKIP LOCKED is a no-op in
this single-transaction model.) -/
def getStuckJobsQuery (q : String) (thresholdMs : Int) (batchSize : Nat)
    (now : Int) (t : Table) : List Row :=
  ((t.filter (fun r =>
      r.queue_name == q && r.status == .processing
        && decide (liveness r < now - thresholdMs))).insertionSort
    livenessLE).take batchSize

/-- QUERIES.MARK_AS_STUCK: SET status = 'stuck', updated_at = NOW() WHERE
id = ANY($1). -/
def markAsStuckTable (ids : List Nat) (now : Int) (t : Table) : Table :=
  t.map (fun r =>
    if r.id ∈ ids then { r with status := .stuck, updated_at := now } else r)

/-- QUERIES.BULK_MARK_DEAD: SET status = 'dead', updated_at = NOW(),
completed_at = NOW() for the given ids. -/
def bulkMarkDeadTable (ids : List Nat) (now : Int) (t : Table) : Table :=
  t.map (fun r =>
    if r.id ∈ ids then
      { r with status := .dead, updated_at := now, completed_at := some now }
    else r)

/-- The partition loop of JobRepository.getAndMarkStuckJobs: jobs with
attempts < max_attempts are pushed to toReEnqueue, the rest contribute their
id to deadJobIds, in selection order. -/
def partitionStuck : List Row → List Row × List Nat
  | [] => ([], [])
  | j :: rest =>
    let p := partitionStuck rest
    if j.attempts < j.max_attempts then (j :: p.1, p.2) else (p.1, j.id :: p.2)

/-- Result of the stuck-job harvest together with the table it leaves
behind. -/
structure HarvestResult where
  toReEnqueue : List Row
  deadJobIds : List Nat
  table : Table

/-- JobRepository.getAndMarkStuckJobs: inside one transaction, select stuck
rows (GET_STUCK_JOBS), mark them all 'stuck' (MARK_AS_STUCK), partition by
attempts, and mark the exhausted ones 'dead' (BULK_MARK_DEAD, only issued
when the dead set is non-empty). -/
def getAndMarkStuckJobs (q : String) (thresholdMs : Int) (batchSize : Nat)
    (now : Int) (t : Table) : HarvestResult :=
  let sel := getStuckJobsQuery q thresholdMs batchSize now t
  if sel.isEmpty then
    { toReEnqueue := [], deadJobIds := [], table := t }
  else
    let t1 := markAsStuckTable (sel.map Row.id) now t
    let p := partitionStuck sel
    let t2 := if p.2.isEmpty then t1 else bulkMarkDeadTable p.2 now t1
    { toReEnqueue := p.1, deadJobIds := p.2, table := t2 }

/-- AdaptiveScheduler state (src/reconciliation/scheduler.ts). Intervals are
modelled as exact rationals; the JS literals 1.5 and 0.8 become 3/2 and 4/5. -/
structure AdaptiveScheduler where
  baseIntervalMs : ℚ
  currentIntervalMs : ℚ
  adaptiveScheduling : Bool
  consecutiveEmptyRuns : Nat
  minIntervalMs : ℚ
  maxIntervalMs : ℚ
deriving DecidableEq

/-- AdaptiveScheduler constructor: currentIntervalMs starts at the base,
minIntervalMs = Math.max(5000, base / 4), maxIntervalMs = base * 4. -/
def mkAdaptiveScheduler (base : ℚ) (adaptive : Bool) : AdaptiveScheduler :=
  { baseIntervalMs := base
    currentIntervalMs := base
    adaptiveScheduling := adaptive
    consecutiveEmptyRuns := 0
    minIntervalMs := max 5000 (base / 4)
    maxIntervalMs := base * 4 }

/-- AdaptiveScheduler.recordResult(foundStuckJobs, successRate): no-op unless
adaptive; successRate < 0.8 backs off by 1.5x clamped to max and returns;
otherwise zero found increments the empty counter and backs off by 1.5x
(clamped) from the third consecutive empty run on, while a non-zero find
resets the counter and speeds up by 0.8x clamped to min. -/
def recordResult (s : AdaptiveScheduler) (foundStuckJobs : Nat)
    (successRate : ℚ) : AdaptiveScheduler :=
  if !s.adaptiveScheduling then s
  else if successRate < 4 / 5 then
    let slowed := min (s.currentIntervalMs * (3 / 2)) s.maxIntervalMs
    { s with currentIntervalMs := slowed }
  else if foundStuckJobs == 0 then
    let runs := s.consecutiveEmptyRuns + 1
    if runs ≥ 3 then
      let slowed := min (s.currentIntervalMs * (3 / 2)) s.maxIntervalMs
      { s with consecutiveEmptyRuns := runs, currentIntervalMs := slowed }
    else { s with consecutiveEmptyRuns := runs }
  else
    let sped := max (s.currentIntervalMs * (4 / 5)) s.minIntervalMs
    { s with consecutiveEmptyRuns := 0, currentIntervalMs := sped }

/-- Run a whole sequence of recordResult inputs from a given state. -/
def recordResults (s : AdaptiveScheduler) (inputs : List (Nat × ℚ)) :
    AdaptiveScheduler :=
  inputs.foldl (fun st p => recordResult st p.1 p.2) s

/-- Circuit breaker states (src/utils/circuit-breaker.ts `CircuitState`). -/
inductive CircuitState where
  | closed
  | open
  | halfOpen
deriving DecidableEq

/-- CircuitBreaker state: consecutive-failure counter, success counter,
timestamp of the last failure, configured threshold and recovery timeout, and
the 60-second sliding window of (success, timestamp) call records. -/
structure CircuitBreaker where
  state : CircuitState
  failureCount : Nat
  successCount : Nat
  lastFailureTime : Int
  threshold : Nat
  timeout : Int
  callHistory : List (Bool × Int)
deriving DecidableEq

/-- CircuitBreaker constructor: starts closed with zeroed counters. -/
def mkCircuitBreaker (threshold : Nat) (timeout : Int) : CircuitBreaker :=
  { state := .closed, failureCount := 0, successCount := 0,
    lastFailureTime := 0, threshold := threshold, timeout := timeout,
    callHistory := [] }

/-- pruneOldCalls: drop window entries with timestamp <= now - 60000. -/
def pruneOldCalls (cb : CircuitBreaker) (now : Int) : CircuitBreaker :=
  { cb with callHistory :=
      cb.callHistory.filter (fun c => decide (now - 60000 < c.2)) }

/-- onSuccess: record the call, bump successCount, reset the
consecutive-failure counter, and close the breaker from half-open. -/
def onSuccess (cb : CircuitBreaker) (now : Int) : CircuitBreaker :=
  { cb with callHistory := cb.callHistory ++ [(true, now)],
            successCount := cb.successCount + 1,
            failureCount := 0,
            state := if cb.state == .halfOpen then .closed else cb.state }

/-- onFailure: record the call, bump the consecutive-failure counter, stamp
lastFailureTime, and trip to open when the counter reaches the threshold. -/
def onFailure (cb : CircuitBreaker) (now : Int) : CircuitBreaker :=
  { cb with callHistory := cb.callHistory ++ [(false, now)],
            failureCount := cb.failureCount + 1,
            lastFailureTime := now,
            state := if cb.failureCount + 1 ≥ cb.threshold then .open
                     else cb.state }

/-- Outcome of CircuitBreaker.execute: either the call was rejected with
CircuitBreakerOpenError, or the operation ran and succeeded/failed. -/
inductive ExecOutcome where
  | rejected
  | ran (success : Bool)
deriving DecidableEq

/-- CircuitBreaker.execute: prune the window; in the open state reject unless
now - lastFailureTime > timeout, in which case move to half-open and let
the probe through; an operation that runs feeds onSuccess/onFailure. The operation's
own success is the `opSuccess` parameter. -/
def execute (cb : CircuitBreaker) (now : Int) (opSuccess : Bool) :
    ExecOutcome × CircuitBreaker :=
  let cb := pruneOldCalls cb now
  if cb.state == .open then
    if now - cb.lastFailureTime > cb.timeout then
      let cb := { cb with state := .halfOpen }
      if opSuccess then (.ran true, onSuccess cb now)
      else (.ran false, onFailure cb now)
    else (.rejected, cb)
  else
    if opSuccess then (.ran true, onSuccess cb now)
    else (.ran false, onFailure cb now)

/-- Fold a sequence of failing calls (timestamps given) through
execute. -/
def executeFailures (cb : CircuitBreaker) (times : List Int) : CircuitBreaker :=
  times.foldl (fun c t => (execute c t false).2) cb

/-- ReconciliationConfig as the Reconciler constructor consumes it
(src/types/config.ts): every field optional; numbers are integers so the
JS falsiness of 0 is visible. -/
structure ReconciliationConfig where
  enabled : Option Bool := none
  intervalMs : Option Int := none
  stuckThresholdMs : Option Int := none
  batchSize : Option Int := none
  adaptiveScheduling : Option Bool := none
  rateLimitPerSecond : Option Int := none
  useHeartbeat : Option Bool := none

/-- JS `x || d` on an optional number: undefined and 0 (the falsy values)
yield the default. -/
def jsOrInt (v : Option Int) (d : Int) : Int :=
  match v with
  | none => d
  | some x => if x == 0 then d else x

/-- JS `x !== false` on an optional boolean. -/
def jsNotFalse (v : Option Bool) : Bool :=
  match v with
  | none => true
  | some b => b

/-- The fully-defaulted configuration the Reconciler keeps
(Required of ReconciliationConfig). -/
structure ReconcilerConfig where
  enabled : Bool
  intervalMs : Int
  stuckThresholdMs : Int
  batchSize : Int
  adaptiveScheduling : Bool
  rateLimitPerSecond : Int
  useHeartbeat : Bool
deriving DecidableEq

/-- Reconciler constructor (src/reconciliation/reconciler.ts): applies
`config.stuckThresholdMs || 300000`, throws ReconciliationError when the
resulting threshold is below 60000 ms, and otherwise fills in the remaining
defaults. The error case is `Except.error`. -/
def mkReconciler (config : ReconciliationConfig) :
    Except String ReconcilerConfig :=
  let stuckThresholdMs := jsOrInt config.stuckThresholdMs 300000
  if stuckThresholdMs < 60000 then
    .error "stuckThresholdMs must be at least 60000ms (60 seconds)"
  else
    .ok { enabled := jsNotFalse config.enabled
          intervalMs := jsOrInt config.intervalMs 30000
          stuckThresholdMs := stuckThresholdMs
          batchSize := jsOrInt config.batchSize 100
          adaptiveScheduling := jsNotFalse config.adaptiveScheduling
          rateLimitPerSecond := jsOrInt config.rateLimitPerSecond 20
          useHeartbeat := jsNotFalse config.useHeartbeat }

/-- BaseAdapter.validateJobData: the job name may be at most 255 characters
and the JSON-serialized payload at most 1048576 UTF-8 bytes. The payload is
modelled by its serialization outcome: `none` when JSON.stringify throws
(circular reference), `some str` for the serialized text. The source's
catch block rethrows its own size error and wraps serialization errors. -/
def validateJobData (jobName : Option String) (payload : Option String) :
    Except String Unit :=
  match jobName with
  | some n =>
    if n.length > 255 then .error "Job name exceeds 255 characters"
    else validateDataSize payload
  | none => validateDataSize payload
where
  validateDataSize : Option String → Except String Unit
    | some str =>
      if str.utf8ByteSize > 1048576 then
        .error "Job data exceeds 1048576 bytes (1MB limit)"
      else .ok ()
    | none => .error "Job data cannot be serialized to JSON"

/-- JS `x || d` on an optional natural number (0 is falsy). -/
def jsOrNat (v : Option Nat) (d : Nat) : Nat :=
  match v with
  | none => d
  | some x => if x == 0 then d else x

/-- BaseAdapter.handleJobCreated: validate, then repository.createJob with
`maxAttempts || 3`; every error (validation included) is caught, logged and
swallowed, so the table is left unchanged on failure and the method never
throws. -/
def handleJobCreated (q : String) (qt : QueueType) (jid : String)
    (jname : Option String) (payload : Option String)
    (maxAttempts : Option Nat) (newId : Nat) (now : Int) (t : Table) : Table :=
  match validateJobData jname payload with
  | .error _ => t
  | .ok _ =>
    match payload with
    | some str => insertJobTable q qt jid jname str (jsOrNat maxAttempts 3)
        newId now t
    | none => t

/-- What the wrapped submit returns to the producer: the broker job id when
the submit resolved, plus the table after the persistence step. -/
structure SubmitOutcome where
  brokerJob : Option String
  table : Table
deriving DecidableEq

/-- BullAdapter.wrapAddMethod's wrapper: forward to the original add (the
broker assigns `brokerJobId`), then await handleJobCreated — which swallows
all of its errors — and return the broker job to the caller. -/
def bullWrappedAdd (queueName : String) (jobName : Option String)
    (payload : Option String) (optsAttempts : Option Nat)
    (brokerJobId : String) (newId : Nat) (now : Int) (t : Table) :
    SubmitOutcome :=
  let t2 := handleJobCreated queueName .bull brokerJobId jobName payload
    optsAttempts newId now t
  { brokerJob := some brokerJobId, table := t2 }

/-- Whitespace class for the sanitizer regexes (JS \s, ASCII part; the
claims never exercise the Unicode spaces). -/
def isWsJS (c : Char) : Bool :=
  c == ' ' || c == '\t' || c == '\n' || c == '\r'
    || c == Char.ofNat 11 || c == Char.ofNat 12

/-- Single or double quote, the ['"] class of the sanitizer regexes. -/
def isQuote (c : Char) : Bool := c == Char.ofNat 39 || c == '"'

/-- Case-insensitive literal match (the pattern is given lowercase);
returns the remainder after the literal. -/
def matchLitCI : List Char → List Char → Option (List Char)
  | [], l => some l
  | _ :: _, [] => none
  | p :: ps, c :: cs => if c.toLower == p then matchLitCI ps cs else none

/-- Case-sensitive literal match; returns the remainder. -/
def matchLit : List Char → List Char → Option (List Char)
  | [], l => some l
  | _ :: _, [] => none
  | p :: ps, c :: cs => if c == p then matchLit ps cs else none

/-- First-success alternation, the backtracking order of a regex `|`. -/
def orElseO (a b : Option (List Char)) : Option (List Char) :=
  match a with
  | some r => some r
  | none => b

/-- Matcher for /postgresql:\/\/[^:]+:[^@]+@[^\s]+/i at the head of the
input. Each quantified class excludes its delimiter, so the greedy runs are
the maximal class runs and no backtracking can succeed where this fails. -/
def tryPgMatch (l : List Char) : Option (List Char) :=
  match matchLitCI "postgresql://".data l with
  | none => none
  | some l1 =>
    let sp1 := l1.span (fun c => c != ':')
    if sp1.1.isEmpty then none else
    match sp1.2 with
    | ':' :: l2 =>
      let sp2 := l2.span (fun c => c != '@')
      if sp2.1.isEmpty then none else
      match sp2.2 with
      | '@' :: l3 =>
        let sp3 := l3.span (fun c => !isWsJS c)
        if sp3.1.isEmpty then none else some sp3.2
      | _ => none
    | _ => none

/-- Matcher for the shared key-value tail [\s]*[=:][\s]*['"]?(CLASS{min,})['"]?
of the password and api-key regexes. The value class excludes quotes and
whitespace, so when a leading quote is consumed and the value run is too
short, dropping the optional quote cannot help either — exactly the regex's
backtracking outcome. -/
def tryKVTail (valClass : Char → Bool) (minLen : Nat) (l : List Char) :
    Option (List Char) :=
  let sp0 := l.span isWsJS
  match sp0.2 with
  | c :: l1 =>
    if c == '=' || c == ':' then
      let sp1 := l1.span isWsJS
      match sp1.2 with
      | q :: l2 => if isQuote q then kvValue valClass minLen l2
                   else kvValue valClass minLen sp1.2
      | [] => none
    else none
  | [] => none
where
  kvValue (valClass : Char → Bool) (minLen : Nat) (m : List Char) :
      Option (List Char) :=
    let spv := m.span valClass
    if spv.1.length < minLen then none
    else
      match spv.2 with
      | q :: rest => if isQuote q then some rest else some spv.2
      | [] => some []

/-- Value class [^'"\s]+ of the password regex. -/
def passwordClass (c : Char) : Bool := !(isQuote c || isWsJS c)

/-- Value class [a-zA-Z0-9_-] of the api-key and JWT regexes. -/
def tokenClass (c : Char) : Bool := c.isAlphanum || c == '_' || c == '-'

/-- Matcher for /(?:password|passwd|pwd)[\s]*[=:][\s]*['"]?([^'"\s]+)['"]?/i:
the three keyword alternatives are tried in regex order. -/
def tryPasswordMatch (l : List Char) : Option (List Char) :=
  orElseO ((matchLitCI "password".data l).bind (tryKVTail passwordClass 1))
    (orElseO ((matchLitCI "passwd".data l).bind (tryKVTail passwordClass 1))
      ((matchLitCI "pwd".data l).bind (tryKVTail passwordClass 1)))

/-- The api[_-]?key keyword: greedy optional separator, with the regex's
backtracking to the separator-less branch. -/
def tryApiKw (l : List Char) : Option (List Char) :=
  match matchLitCI "api".data l with
  | none => none
  | some r =>
    match r with
    | c :: r2 =>
      if c == '_' || c == '-' then
        orElseO (matchLitCI "key".data r2) (matchLitCI "key".data r)
      else matchLitCI "key".data r
    | [] => matchLitCI "key".data r

/-- Matcher for
/(?:api[_-]?key|token|bearer)[\s]*[=:][\s]*['"]?([a-zA-Z0-9_-]{20,})['"]?/i. -/
def tryApiMatch (l : List Char) : Option (List Char) :=
  orElseO ((tryApiKw l).bind (tryKVTail tokenClass 20))
    (orElseO ((matchLitCI "token".data l).bind (tryKVTail tokenClass 20))
      ((matchLitCI "bearer".data l).bind (tryKVTail tokenClass 20)))

/-- Class [0-9A-Z] of the AWS key regex. -/
def akiaClass (c : Char) : Bool := c.isDigit || ('A' ≤ c && c ≤ 'Z')

/-- Exactly n characters of a class. -/
def exactClassRun : Nat → (Char → Bool) → List Char → Option (List Char)
  | 0, _, l => some l
  | _ + 1, _, [] => none
  | n + 1, p, c :: cs => if p c then exactClassRun n p cs else none

/-- Matcher for /AKIA[0-9A-Z]{16}/ (case-sensitive). -/
def tryAkiaMatch (l : List Char) : Option (List Char) :=
  (matchLit "AKIA".data l).bind (exactClassRun 16 akiaClass)

/-- Matcher for /eyJ[a-zA-Z0-9_-]{10,}\.[a-zA-Z0-9_-]{10,}/ (case-sensitive):
the dot is outside the class, so each greedy run is the maximal class run. -/
def tryJwtMatch (l : List Char) : Option (List Char) :=
  match matchLit "eyJ".data l with
  | none => none
  | some r =>
    let sp1 := r.span tokenClass
    if sp1.1.length < 10 then none else
    match sp1.2 with
    | '.' :: r2 =>
      let sp2 := r2.span tokenClass
      if sp2.1.length < 10 then none else some sp2.2
    | _ => none

/-- One global-replace pass (String.prototype.replace with the g flag): scan
left to right, substitute each match and continue after it, otherwise copy a
character. Every pattern here consumes at least one character, so fuel equal
to the input length always suffices. -/
def replaceScan (tryM : List Char → Option (List Char)) (repl : List Char) :
    Nat → List Char → List Char
  | _, [] => []
  | 0, l => l
  | fuel + 1, c :: rest =>
    match tryM (c :: rest) with
    | some remainder => repl ++ replaceScan tryM repl fuel remainder
    | none => c :: replaceScan tryM repl fuel rest

/-- A full global-replace over an input. -/
def applyRedaction (tryM : List Char → Option (List Char)) (repl : String)
    (l : List Char) : List Char :=
  replaceScan tryM repl.data l.length l

/-- The final step of sanitizeErrorMessage: a result longer than 5000
characters is cut to 5000 and suffixed with "... (truncated)". -/
def truncateSanitized (s5 : List Char) : String :=
  if s5.length > 5000 then
    String.mk (s5.take 5000 ++ "... (truncated)".data)
  else String.mk s5

/-- BaseAdapter.sanitizeErrorMessage: a falsy (empty) input becomes
"Unknown error"; otherwise the five redactions run in source order
(connection strings, password fields, api keys and tokens, AWS keys, JWTs),
then the truncation step. -/
def sanitizeErrorMessage (message : String) : String :=
  if message.length == 0 then "Unknown error"
  else
    truncateSanitized
      (applyRedaction tryJwtMatch "jwt.***"
        (applyRedaction tryAkiaMatch "AKIA***"
          (applyRedaction tryApiMatch "api_key=***"
            (applyRedaction tryPasswordMatch "password=***"
              (applyRedaction tryPgMatch "postgresql://***:***@***"
                message.data)))))

/-- Whether some suffix of the input matches the given pattern, i.e. the
string contains a substring matching it. (None of the five patterns can
match the empty string, so only non-empty suffixes are probed.) -/
def containsMatch (tryM : List Char → Option (List Char)) :
    List Char → Bool
  | [] => false
  | c :: rest => (tryM (c :: rest)).isSome || containsMatch tryM rest

/-- Broker- and database-side effects a re-enqueue can perform. -/
inductive ReEffect where
  | brokerRemoveAttempt (jobId : String)
  | brokerResubmit (jobId : String)
  | beeCreateJob
  | dbUpdateStatus (jobId : String) (st : Status)
deriving DecidableEq

/-- BullAdapter.reEnqueueJob as its effect trace: re-verify through
repository.getJob (`lookup` is its result); skip unless the fresh status is
'stuck'; then atomically remove from the broker (`removed` is the script's
verdict), and only on removal re-submit under the same job id and set the
record back to 'pending'. -/
def bullReEnqueueJob (record : Row) (lookup : Option Row) (removed : Bool) :
    List ReEffect :=
  match lookup with
  | none => []
  | some cur =>
    if cur.status != .stuck then []
    else if removed then
      [.brokerRemoveAttempt record.job_id, .brokerResubmit record.job_id,
       .dbUpdateStatus record.job_id .pending]
    else [.brokerRemoveAttempt record.job_id]

/-- BullMQAdapter.reEnqueueJob: same protocol as Bull (the difference is
only in how the original add is invoked on the broker). -/
def bullmqReEnqueueJob (record : Row) (lookup : Option Row) (removed : Bool) :
    List ReEffect :=
  match lookup with
  | none => []
  | some cur =>
    if cur.status != .stuck then []
    else if removed then
      [.brokerRemoveAttempt record.job_id, .brokerResubmit record.job_id,
       .dbUpdateStatus record.job_id .pending]
    else [.brokerRemoveAttempt record.job_id]

/-- BeeAdapter.reEnqueueJob: after the same re-verify guard it creates a
fresh broker job (Bee cannot reuse ids) and marks the old record 'failed'. -/
def beeReEnqueueJob (record : Row) (lookup : Option Row) : List ReEffect :=
  match lookup with
  | none => []
  | some cur =>
    if cur.status != .stuck then []
    else [.beeCreateJob, .dbUpdateStatus record.job_id .failed]

/-- Coordinator state (src/jobguard.ts): whether async initialization has
completed, and which background resources exist. -/
structure GuardState where
  initialized : Bool
  reconcilerPresent : Bool
  cleanupTimerPresent : Bool
deriving DecidableEq

/-- Effects the coordinator's public methods can perform on its
collaborators. -/
inductive GuardEffect where
  | repoGetStatistics
  | reconcilerForceRun
  | adapterUpdateHeartbeat (jobId : String)
  | reconcilerStop
  | cleanupTimerClear
  | adapterDispose
  | poolClose
deriving DecidableEq

/-- JobGuard.getStats: throws when not initialized, otherwise delegates to
repository.getStatistics. -/
def guardGetStats (g : GuardState) : Except String (List GuardEffect) :=
  if !g.initialized then .error "JobGuard is not initialized"
  else .ok [.repoGetStatistics]

/-- JobGuard.forceReconciliation: throws when not initialized or when the
reconciler is disabled, otherwise runs a cycle. -/
def guardForceReconciliation (g : GuardState) :
    Except String (List GuardEffect) :=
  if !g.initialized then .error "JobGuard is not initialized"
  else if !g.reconcilerPresent then .error "Reconciliation is not enabled"
  else .ok [.reconcilerForceRun]

/-- JobGuard.updateHeartbeat: throws when not initialized, otherwise
delegates to the adapter. -/
def guardUpdateHeartbeat (g : GuardState) (jobId : String) :
    Except String (List GuardEffect) :=
  if !g.initialized then .error "JobGuard is not initialized"
  else .ok [.adapterUpdateHeartbeat jobId]

/-- JobGuard.shutdown: a warning-only no-op when not initialized; otherwise
stops the reconciler and cleanup timer when present, disposes the adapter,
closes the pool, and clears the initialized flag. -/
def guardShutdown (g : GuardState) : GuardState × List GuardEffect :=
  if !g.initialized then (g, [])
  else
    let e1 := if g.reconcilerPresent then [GuardEffect.reconcilerStop] else []
    let e2 := if g.cleanupTimerPresent then [GuardEffect.cleanupTimerClear]
      else []
    ({ g with initialized := false },
     e1 ++ e2 ++ [.adapterDispose, .poolClose])

/-! Theorems -/

/-- C5 counterexample: a configuration with stuckThresholdMs = 0 is below the
60000 floor, yet construction succeeds, because JS `0 || 300000` silently
replaces 0 by the default before the floor check. -/
theorem reconciler_accepts_zero_threshold :
    (0 : Int) < 60000 ∧
      mkReconciler { stuckThresholdMs := some 0 } =
        .ok { enabled := true, intervalMs := 30000,
              stuckThresholdMs := 300000, batchSize := 100,
              adaptiveScheduling := true, rateLimitPerSecond := 20,
              useHeartbeat := true } := by
  exact ⟨by decide, rfl⟩

/-- C5 (amended): a provided non-zero stuckThresholdMs below 60000 makes the
Reconciler constructor throw ReconciliationError, while any threshold of at
least 60000 is accepted and is the threshold in effect; a provided 0 falls
back to the 300000 default (and succeeds), as does an absent value. -/
theorem reconciler_threshold_floor (cfg : ReconciliationConfig) (v : Int)
    (hv : cfg.stuckThresholdMs = some v) :
    (v ≠ 0 → v < 60000 → (mkReconciler cfg).isOk = false) ∧
      (60000 ≤ v →
        ∃ rc, mkReconciler cfg = .ok rc ∧ rc.stuckThresholdMs = v) := by
  constructor
  · intro hne hlt
    have hth : jsOrInt cfg.stuckThresholdMs 300000 = v := by
      simp [jsOrInt, hv, hne]
    simp only [mkReconciler, hth]
    rw [if_pos hlt]
    rfl
  · intro hge
    have hne : v ≠ 0 := by omega
    have hth : jsOrInt cfg.stuckThresholdMs 300000 = v := by
      simp [jsOrInt, hv, hne]
    have hnl : ¬ v < 60000 := by omega
    refine ⟨{ enabled := jsNotFalse cfg.enabled
              intervalMs := jsOrInt cfg.intervalMs 30000
              stuckThresholdMs := v
              batchSize := jsOrInt cfg.batchSize 100
              adaptiveScheduling := jsNotFalse cfg.adaptiveScheduling
              rateLimitPerSecond := jsOrInt cfg.rateLimitPerSecond 20
              useHeartbeat := jsNotFalse cfg.useHeartbeat }, ?_, rfl⟩
    simp only [mkReconciler, hth]
    rw [if_neg hnl]

/-- C5 witness: the amended theorem at stuckThresholdMs = 50000 (rejected). -/
theorem reconciler_threshold_floor_witness :
    (mkReconciler { stuckThresholdMs := some 50000 }).isOk = false :=
  (reconciler_threshold_floor { stuckThresholdMs := some 50000 } 50000 rfl).1
    (by decide) (by decide)

/-- C9: for each adapter variant, when the fresh repository.getJob re-read
returns no record, or a record whose status is not 'stuck', reEnqueueJob
performs no broker-side removal, no re-submission and no status update. -/
theorem reenqueue_skip_no_effects (record cur : Row) (removed : Bool)
    (hcur : cur.status ≠ .stuck) :
    bullReEnqueueJob record none removed = [] ∧
      bullmqReEnqueueJob record none removed = [] ∧
      beeReEnqueueJob record none = [] ∧
      bullReEnqueueJob record (some cur) removed = [] ∧
      bullmqReEnqueueJob record (some cur) removed = [] ∧
      beeReEnqueueJob record (some cur) = [] := by
  have hb : (cur.status != Status.stuck) = true := by
    simpa using hcur
  refine ⟨rfl, rfl, rfl, ?_, ?_, ?_⟩ <;>
    simp [bullReEnqueueJob, bullmqReEnqueueJob, beeReEnqueueJob, hb]

/-- C9 witness: a record re-read as 'completed' is skipped everywhere. -/
theorem reenqueue_skip_no_effects_witness :
    bullReEnqueueJob
      { id := 1, queue_name := "q", queue_type := .bull, job_id := "j",
        job_name := none, data := "d", status := .stuck, attempts := 1,
        max_attempts := 3, error_message := none, created_at := 0,
        updated_at := 0, started_at := none, completed_at := none,
        last_heartbeat := none }
      (some { id := 1, queue_name := "q", queue_type := .bull, job_id := "j",
              job_name := none, data := "d", status := .completed,
              attempts := 1, max_attempts := 3, error_message := none,
              created_at := 0, updated_at := 5, started_at := none,
              completed_at := some 5, last_heartbeat := none })
      true = [] :=
  (reenqueue_skip_no_effects _ _ true (by decide)).2.2.2.1

/-- C10: before initialization has completed (initialized = false), getStats,
forceReconciliation and updateHeartbeat throw the not-initialized error
without touching repository or adapter, and shutdown returns without
stopping timers, disposing the adapter or closing the pool; after shutdown
of an initialized instance the flag is cleared again, so the same guards
fire. -/
theorem coordinator_guards (jobId : String) :
    (∀ g : GuardState, g.initialized = false →
      guardGetStats g = .error "JobGuard is not initialized" ∧
        guardForceReconciliation g = .error "JobGuard is not initialized" ∧
        guardUpdateHeartbeat g jobId = .error "JobGuard is not initialized" ∧
        guardShutdown g = (g, [])) ∧
      (∀ g : GuardState, g.initialized = true →
        (guardShutdown g).1.initialized = false ∧
          guardGetStats (guardShutdown g).1 =
            .error "JobGuard is not initialized" ∧
          guardUpdateHeartbeat (guardShutdown g).1 jobId =
            .error "JobGuard is not initialized" ∧
          guardForceReconciliation (guardShutdown g).1 =
            .error "JobGuard is not initialized") := by
  constructor
  · intro g hg
    refine ⟨?_, ?_, ?_, ?_⟩ <;>
      simp [guardGetStats, guardForceReconciliation, guardUpdateHeartbeat,
        guardShutdown, hg]
  · intro g hg
    have h1 : (guardShutdown g).1.initialized = false := by
      simp [guardShutdown, hg]
    refine ⟨h1, ?_, ?_, ?_⟩ <;>
      simp [guardGetStats, guardForceReconciliation, guardUpdateHeartbeat, h1]

/-- C10 witness: the guards at a concrete uninitialized state. -/
theorem coordinator_guards_witness :
    guardGetStats
        { initialized := false, reconcilerPresent := true,
          cleanupTimerPresent := true } =
      .error "JobGuard is not initialized" :=
  ((coordinator_guards "j").1
    { initialized := false, reconcilerPresent := true,
      cleanupTimerPresent := true } rfl).1

set_option maxRecDepth 4096 in
/-- C2 counterexample: a 256-character job name fails validation, yet the
wrapped submit resolves with the broker job (it is not surfaced to the
caller), while no database row is written — handleJobCreated catches and
only logs the validation error. -/
theorem submit_swallows_validation_failure :
    (validateJobData (some (String.mk (List.replicate 256 'a')))
        (some "1")).isOk = false ∧
      bullWrappedAdd "q" (some (String.mk (List.replicate 256 'a')))
          (some "1") none "7" 1 0 [] =
        { brokerJob := some "7", table := [] } := by
  exact ⟨by decide, rfl⟩

/-- C2 (amended): when validation fails (name over 255 chars, payload over
1 MiB, or unserializable payload), no database row is written, but the
failure is swallowed: the wrapped submit still resolves with the broker
job, because handleJobCreated catches every error and only logs it. -/
theorem submit_validation_failure_no_row (queueName : String)
    (jobName : Option String) (payload : Option String)
    (optsAttempts : Option Nat) (brokerJobId : String) (newId : Nat)
    (now : Int) (t : Table) (e : String)
    (hval : validateJobData jobName payload = .error e) :
    bullWrappedAdd queueName jobName payload optsAttempts brokerJobId newId
        now t =
      { brokerJob := some brokerJobId, table := t } := by
  simp [bullWrappedAdd, handleJobCreated, hval]

/-- C2 witness: the amended theorem at an unserializable payload. -/
theorem submit_validation_failure_no_row_witness :
    bullWrappedAdd "q" none none none "9" 2 0 [] =
      { brokerJob := some "9", table := [] } :=
  submit_validation_failure_no_row "q" none none none "9" 2 0 []
    "Job data cannot be serialized to JSON" rfl

/-- A concrete completed row used to exercise the terminal-status queries. -/
def completedRow : Row :=
  { id := 1, queue_name := "q", queue_type := .bull, job_id := "j1",
    job_name := none, data := "d", status := .completed, attempts := 1,
    max_attempts := 3, error_message := none, created_at := 0,
    updated_at := 5, started_at := some 1, completed_at := some 5,
    last_heartbeat := none }

/-- C3 counterexample: UPDATE_JOB_STATUS matches rows by business key alone —
no status guard — so a 'completed' (terminal) row is mutated back to
'processing' by a late broker event. -/
theorem update_job_status_mutates_terminal_row :
    isTerminal completedRow.status = true ∧
      (updateJobStatusTable "q" .bull "j1" .processing 9
          [completedRow]).map Row.status = [.processing] ∧
      (updateJobErrorTable "q" .bull "j1" "boom" 9
          [completedRow]).map Row.status = [.failed] := by
  exact ⟨rfl, rfl, rfl⟩

/-- C3 (amended): terminal rows are shielded only where a query carries a
status predicate: insertJob's UPSERT (both its conflict target and its DO
UPDATE WHERE exclude terminal statuses) and updateHeartbeat (status =
'processing' only) never mutate a terminal row; updateJobStatus and
updateJobError, whose WHERE clauses match the business key alone, can. -/
theorem insert_heartbeat_preserve_terminal_rows (q : String)
    (qt : QueueType) (jid : String) (jname : Option String)
    (payload : String) (maxA newId : Nat) (now : Int) (t : Table) (r : Row)
    (hterm : isTerminal r.status = true) :
    insertConflictRow q qt jid payload now r = r ∧
      heartbeatRow q qt jid now r = r ∧
      (r ∈ t → r ∈ insertJobTable q qt jid jname payload maxA newId now t) ∧
      (r ∈ t → r ∈ updateHeartbeatTable q qt jid now t) := by
  have hins : insertConflictRow q qt jid payload now r = r := by
    simp [insertConflictRow, hterm]
  have hhb : heartbeatRow q qt jid now r = r := by
    have : (r.status == Status.processing) = false := by
      cases hs : r.status <;> simp_all [isTerminal]
    simp [heartbeatRow, this]
  refine ⟨hins, hhb, ?_, ?_⟩
  · intro hr
    unfold insertJobTable
    split
    · exact List.mem_map.mpr ⟨r, hr, hins⟩
    · exact List.mem_append_left _ hr
  · intro hr
    exact List.mem_map.mpr ⟨r, hr, hhb⟩

/-- C3 witness: the amended theorem at the concrete completed row. -/
theorem insert_heartbeat_preserve_terminal_rows_witness :
    completedRow ∈
      insertJobTable "q" .bull "j1" none "d2" 3 2 9 [completedRow] :=
  (insert_heartbeat_preserve_terminal_rows "q" .bull "j1" none "d2" 3 2 9
    [completedRow] completedRow (by decide)).2.2.1 (by simp)

/-- A concrete dead row with exhausted attempts. -/
def deadRow : Row :=
  { id := 2, queue_name := "q", queue_type := .bull, job_id := "j2",
    job_name := none, data := "d", status := .dead, attempts := 3,
    max_attempts := 3, error_message := none, created_at := 0,
    updated_at := 5, started_at := some 1, completed_at := some 5,
    last_heartbeat := none }

/-- C4 counterexample: the input row satisfies attempts <= max_attempts
(3 <= 3, already dead), yet one more reported failure drives attempts to 4 >
max_attempts, because UPDATE_JOB_ERROR increments unconditionally and its
WHERE clause has no status guard. -/
theorem update_job_error_exceeds_attempt_bound :
    deadRow.attempts ≤ deadRow.max_attempts ∧
      (updateJobErrorTable "q" .bull "j2" "boom" 9 [deadRow]).map
          (fun r => decide (r.attempts ≤ r.max_attempts)) = [false] := by
  exact ⟨by decide, rfl⟩

/-- C4 (amended): a single updateJobError transition from a row that is
strictly below its attempt bound preserves attempts <= max_attempts across
the whole table, and on the matched rows it sets status to 'dead' exactly
when attempts + 1 >= max_attempts and to 'failed' otherwise (with
completed_at stamped on the dead branch); but the bound is not preserved by
arbitrary sequences of reported failures — a failure reported against an
already-exhausted row pushes attempts past max_attempts. -/
theorem update_job_error_attempt_bound (q : String) (qt : QueueType)
    (jid err : String) (now : Int) (t : Table)
    (hbound : ∀ r ∈ t,
      (keyMatches q qt jid r = true → r.attempts < r.max_attempts) ∧
        (keyMatches q qt jid r = false → r.attempts ≤ r.max_attempts)) :
    (∀ r2 ∈ updateJobErrorTable q qt jid err now t,
        r2.attempts ≤ r2.max_attempts) ∧
      (∀ r ∈ t, keyMatches q qt jid r = true →
        ((applyErrorSet err now r).status = .dead ↔
            r.max_attempts ≤ r.attempts + 1) ∧
          ((applyErrorSet err now r).status = .failed ↔
            r.attempts + 1 < r.max_attempts) ∧
          (r.max_attempts ≤ r.attempts + 1 →
            (applyErrorSet err now r).completed_at = some now)) := by
  constructor
  · intro r2 hr2
    rcases List.mem_map.mp hr2 with ⟨r, hr, hmap⟩
    rcases hbound r hr with ⟨hkey, hnokey⟩
    by_cases hk : keyMatches q qt jid r = true
    · have hlt := hkey hk
      subst hmap
      simp only [hk, if_true, applyErrorSet]
      omega
    · have hle := hnokey (by simpa using hk)
      subst hmap
      simp only [hk, if_false]
      simpa using hle
  · intro r _ _
    refine ⟨?_, ?_, ?_⟩
    · constructor
      · intro hd
        by_contra hlt
        simp [applyErrorSet, if_neg (by omega : ¬ r.attempts + 1 ≥ r.max_attempts)] at hd
      · intro hge
        simp [applyErrorSet, if_pos (by omega : r.attempts + 1 ≥ r.max_attempts)]
    · constructor
      · intro hf
        by_contra hge
        simp [applyErrorSet, if_pos (by omega : r.attempts + 1 ≥ r.max_attempts)] at hf
      · intro hlt
        simp [applyErrorSet, if_neg (by omega : ¬ r.attempts + 1 ≥ r.max_attempts)]
    · intro hge
      simp [applyErrorSet, if_pos (by omega : r.attempts + 1 ≥ r.max_attempts)]

/-- A concrete processing row one failure away from exhaustion. -/
def almostDeadRow : Row :=
  { id := 3, queue_name := "q", queue_type := .bull, job_id := "j3",
    job_name := none, data := "d", status := .processing, attempts := 2,
    max_attempts := 3, error_message := none, created_at := 0,
    updated_at := 5, started_at := some 1, completed_at := none,
    last_heartbeat := none }

/-- C4 witness: the amended theorem at a one-row table one failure away from
exhaustion: the bound still holds on the updated row. -/
theorem update_job_error_attempt_bound_witness :
    (applyErrorSet "boom" 9 almostDeadRow).attempts ≤
      (applyErrorSet "boom" 9 almostDeadRow).max_attempts :=
  (update_job_error_attempt_bound "q" .bull "j3" "boom" 9 [almostDeadRow]
      (by
        intro r hr
        simp only [List.mem_singleton] at hr
        subst hr
        exact ⟨fun _ => by decide, fun _ => by decide⟩)).1
    (applyErrorSet "boom" 9 almostDeadRow) (by decide)

lemma execute_closed_failure (cb : CircuitBreaker) (now : Int)
    (h : cb.state = .closed) :
    (execute cb now false).2.state =
        (if cb.failureCount + 1 ≥ cb.threshold then CircuitState.open
         else .closed) ∧
      (execute cb now false).2.failureCount = cb.failureCount + 1 ∧
      (execute cb now false).2.threshold = cb.threshold := by
  simp [execute, pruneOldCalls, onFailure, h]

lemma executeFailures_cons (cb : CircuitBreaker) (t : Int)
    (rest : List Int) :
    executeFailures cb (t :: rest) =
      executeFailures (execute cb t false).2 rest := rfl

lemma executeFailures_stay_closed (times : List Int) :
    ∀ cb : CircuitBreaker, cb.state = .closed →
      cb.failureCount + times.length < cb.threshold →
      (executeFailures cb times).state = .closed ∧
        (executeFailures cb times).failureCount =
          cb.failureCount + times.length ∧
        (executeFailures cb times).threshold = cb.threshold := by
  induction times with
  | nil => intro cb h _; exact ⟨h, by simp [executeFailures], rfl⟩
  | cons t rest ih =>
    intro cb h hlt
    rcases execute_closed_failure cb t h with ⟨hs, hf, hth⟩
    have hlt1 : cb.failureCount + 1 < cb.threshold := by
      have := rest.length ≥ 0
      simp only [List.length_cons] at hlt
      omega
    rw [executeFailures_cons]
    have hs2 : (execute cb t false).2.state = .closed := by
      rw [hs, if_neg (by omega)]
    rcases ih (execute cb t false).2 hs2 (by
      simp only [List.length_cons] at hlt
      omega) with ⟨ha, hb, hc⟩
    refine ⟨ha, ?_, by omega⟩
    rw [hb, hf]
    simp only [List.length_cons]
    omega

lemma executeFailures_opens (times : List Int) :
    ∀ cb : CircuitBreaker, cb.state = .closed →
      cb.failureCount + times.length = cb.threshold → times ≠ [] →
      (executeFailures cb times).state = .open := by
  induction times with
  | nil => intro cb _ _ hne; exact absurd rfl hne
  | cons t rest ih =>
    intro cb h heq _
    rcases execute_closed_failure cb t h with ⟨hs, hf, hth⟩
    rw [executeFailures_cons]
    by_cases htrip : cb.failureCount + 1 ≥ cb.threshold
    · have hrest : rest = [] := by
        simp only [List.length_cons] at heq
        have : rest.length = 0 := by omega
        exact List.length_eq_zero.mp this
      subst hrest
      show (execute cb t false).2.state = .open
      rw [hs, if_pos htrip]
    · have hs2 : (execute cb t false).2.state = .closed := by
        rw [hs, if_neg htrip]
      have hne : rest ≠ [] := by
        intro hr
        subst hr
        simp only [List.length_cons, List.length_nil] at heq
        omega
      exact ih (execute cb t false).2 hs2 (by
        rw [hf, hth]
        simp only [List.length_cons] at heq
        omega) hne

/-- C7: from CLOSED, exactly T consecutive run failures open the
breaker (and fewer than T leave it closed); in OPEN with now − lastFailure
still within the recovery timeout W every execute is rejected with
CircuitBreakerOpenError without running the operation and without touching
the counters; and once now − lastFailure exceeds W a single successful probe
runs and leaves the breaker CLOSED with the consecutive-failure
counter reset to zero. (The configured threshold T is a positive count.) -/
theorem circuit_breaker_closure :
    (∀ (T : Nat) (W : Int) (times : List Int), 1 ≤ T → times.length = T →
      (executeFailures (mkCircuitBreaker T W) times).state = .open) ∧
      (∀ (T : Nat) (W : Int) (times : List Int), times.length < T →
        (executeFailures (mkCircuitBreaker T W) times).state = .closed) ∧
      (∀ (cb : CircuitBreaker) (now : Int) (b : Bool), cb.state = .open →
        now - cb.lastFailureTime ≤ cb.timeout →
        (execute cb now b).1 = .rejected ∧
          (execute cb now b).2.state = .open ∧
          (execute cb now b).2.failureCount = cb.failureCount ∧
          (execute cb now b).2.lastFailureTime = cb.lastFailureTime) ∧
      (∀ (cb : CircuitBreaker) (now : Int), cb.state = .open →
        cb.timeout < now - cb.lastFailureTime →
        (execute cb now true).1 = .ran true ∧
          (execute cb now true).2.state = .closed ∧
          (execute cb now true).2.failureCount = 0) := by
  refine ⟨?_, ?_, ?_, ?_⟩
  · intro T W times hT hlen
    refine executeFailures_opens times (mkCircuitBreaker T W) rfl
      (by simp [mkCircuitBreaker, hlen]) ?_
    intro hnil
    rw [hnil] at hlen
    simp at hlen
    omega
  · intro T W times hlen
    exact (executeFailures_stay_closed times (mkCircuitBreaker T W) rfl
      (by simp [mkCircuitBreaker]; omega)).1
  · intro cb now b hopen hle
    have hcond : ¬ now - cb.lastFailureTime > cb.timeout := not_lt.mpr hle
    refine ⟨?_, ?_, ?_, ?_⟩ <;>
      simp [execute, pruneOldCalls, hopen, hcond]
  · intro cb now hopen hgt
    refine ⟨?_, ?_, ?_⟩ <;>
      simp [execute, pruneOldCalls, onSuccess, hopen, hgt]

/-- C7 witness: threshold 2, timeout 60000 — two failures open the breaker,
one leaves it closed, a call at 30000 is rejected, and a successful probe at
70000 closes it with the counter reset. -/
theorem circuit_breaker_closure_witness :
    (executeFailures (mkCircuitBreaker 2 60000) [1, 2]).state = .open ∧
      (executeFailures (mkCircuitBreaker 2 60000) [1]).state = .closed ∧
      (execute (executeFailures (mkCircuitBreaker 2 60000) [1, 2])
          30000 true).1 = .rejected ∧
      (execute (executeFailures (mkCircuitBreaker 2 60000) [1, 2])
          70000 true).2.state = .closed := by
  have h := circuit_breaker_closure
  have hopen : (executeFailures (mkCircuitBreaker 2 60000) [1, 2]).state
      = .open := h.1 2 60000 [1, 2] (by decide) rfl
  refine ⟨hopen, h.2.1 2 60000 [1] (by decide), ?_, ?_⟩
  · exact (h.2.2.1 _ 30000 true hopen (by decide)).1
  · exact (h.2.2.2 _ 70000 hopen (by decide)).2.1

/-- The scheduler's clamp invariant together with the facts that make it
inductive: a positive min bound not exceeding the max bound. -/
def schedBounded (s : AdaptiveScheduler) : Prop :=
  0 < s.minIntervalMs ∧ s.minIntervalMs ≤ s.maxIntervalMs ∧
    s.minIntervalMs ≤ s.currentIntervalMs ∧
    s.currentIntervalMs ≤ s.maxIntervalMs

lemma recordResult_min_max (s : AdaptiveScheduler) (found : Nat) (rate : ℚ) :
    (recordResult s found rate).minIntervalMs = s.minIntervalMs ∧
      (recordResult s found rate).maxIntervalMs = s.maxIntervalMs := by
  simp only [recordResult]
  split
  · exact ⟨rfl, rfl⟩
  · split
    · exact ⟨rfl, rfl⟩
    · split
      · split
        · exact ⟨rfl, rfl⟩
        · exact ⟨rfl, rfl⟩
      · exact ⟨rfl, rfl⟩

lemma recordResult_current (s : AdaptiveScheduler) (found : Nat) (rate : ℚ)
    (h : schedBounded s) :
    s.minIntervalMs ≤ (recordResult s found rate).currentIntervalMs ∧
      (recordResult s found rate).currentIntervalMs ≤ s.maxIntervalMs := by
  rcases h with ⟨hpos, hmm, hlo, hhi⟩
  simp only [recordResult]
  split
  · exact ⟨hlo, hhi⟩
  · split
    · exact ⟨le_min (by linarith) hmm, min_le_right _ _⟩
    · split
      · split
        · exact ⟨le_min (by linarith) hmm, min_le_right _ _⟩
        · exact ⟨hlo, hhi⟩
      · exact ⟨le_max_right _ _, max_le (by linarith) hmm⟩

lemma recordResult_bounded (s : AdaptiveScheduler) (found : Nat) (rate : ℚ)
    (h : schedBounded s) : schedBounded (recordResult s found rate) := by
  rcases recordResult_min_max s found rate with ⟨hmin, hmax⟩
  rcases recordResult_current s found rate h with ⟨hlo, hhi⟩
  rcases h with ⟨hpos, hmm, _, _⟩
  exact ⟨by rw [hmin]; exact hpos, by rw [hmin, hmax]; exact hmm,
    by rw [hmin]; exact hlo, by rw [hmax]; exact hhi⟩

lemma recordResults_bounded (inputs : List (Nat × ℚ)) :
    ∀ s : AdaptiveScheduler, schedBounded s →
      schedBounded (recordResults s inputs) := by
  induction inputs with
  | nil => intro s h; exact h
  | cons p rest ih =>
    intro s h
    exact ih (recordResult s p.1 p.2) (recordResult_bounded s p.1 p.2 h)

/-- C6 counterexample: with a base interval of 1000 ms the scheduler's
initial current interval (1000) already lies below the minimum bound
max(5000, base/4) = 5000, so the claimed bounds do not hold for every base
interval. -/
theorem scheduler_initial_below_min :
    (mkAdaptiveScheduler 1000 true).currentIntervalMs <
      (mkAdaptiveScheduler 1000 true).minIntervalMs := by
  show (1000 : ℚ) < max 5000 (1000 / 4)
  rw [max_eq_left (by norm_num)]
  norm_num

/-- C6 (amended): for every base interval of at least 5000 ms (in particular
the 30000 default) and every sequence of recordResult inputs, the current
interval — the initial one included — stays within
[max(5000, base/4), base * 4]; for a base below 5000 ms the initial interval
starts below the minimum bound. -/
theorem scheduler_interval_bounds (base : ℚ) (adaptive : Bool)
    (inputs : List (Nat × ℚ)) (hbase : 5000 ≤ base) :
    (recordResults (mkAdaptiveScheduler base adaptive)
          inputs).minIntervalMs ≤
        (recordResults (mkAdaptiveScheduler base adaptive)
          inputs).currentIntervalMs ∧
      (recordResults (mkAdaptiveScheduler base adaptive)
          inputs).currentIntervalMs ≤
        (recordResults (mkAdaptiveScheduler base adaptive)
          inputs).maxIntervalMs := by
  have hinit : schedBounded (mkAdaptiveScheduler base adaptive) := by
    refine ⟨lt_of_lt_of_le (by norm_num) (le_max_left _ _), ?_, ?_, ?_⟩ <;>
      simp only [mkAdaptiveScheduler]
    · exact le_trans (max_le hbase (by linarith)) (by linarith)
    · exact max_le hbase (by linarith)
    · linarith
  rcases recordResults_bounded inputs (mkAdaptiveScheduler base adaptive)
    hinit with ⟨_, _, hlo, hhi⟩
  exact ⟨hlo, hhi⟩

/-- C6 witness: the amended theorem at the default base 30000 with one slow
cycle recorded. -/
theorem scheduler_interval_bounds_witness :
    (recordResults (mkAdaptiveScheduler 30000 true)
          [(0, 1 / 2)]).minIntervalMs ≤
        (recordResults (mkAdaptiveScheduler 30000 true)
          [(0, 1 / 2)]).currentIntervalMs ∧
      (recordResults (mkAdaptiveScheduler 30000 true)
          [(0, 1 / 2)]).currentIntervalMs ≤
        (recordResults (mkAdaptiveScheduler 30000 true)
          [(0, 1 / 2)]).maxIntervalMs :=
  scheduler_interval_bounds 30000 true [(0, 1 / 2)] (by norm_num)

lemma length_mk (l : List Char) : (String.mk l).length = l.length := rfl

lemma replaceScan_no_match (tryM : List Char → Option (List Char))
    (repl : List Char)
    (hm : ∀ m : List Char, (∀ c ∈ m, c = 'x') → tryM m = none) :
    ∀ (fuel : Nat) (l : List Char), (∀ c ∈ l, c = 'x') →
      replaceScan tryM repl fuel l = l := by
  intro fuel
  induction fuel with
  | zero => intro l _; cases l <;> rfl
  | succ n ih =>
    intro l hl
    cases l with
    | nil => rfl
    | cons c rest =>
      rw [replaceScan, hm (c :: rest) hl]
      rw [ih rest (fun d hd => hl d (List.mem_cons_of_mem c hd))]

lemma matchers_none_on_x (m : List Char) (hx : ∀ c ∈ m, c = 'x') :
    tryPgMatch m = none ∧ tryPasswordMatch m = none ∧
      tryApiMatch m = none ∧ tryAkiaMatch m = none ∧
      tryJwtMatch m = none := by
  cases m with
  | nil => exact ⟨rfl, rfl, rfl, rfl, rfl⟩
  | cons c rest =>
    have hc : c = 'x' := hx c (List.mem_cons_self c rest)
    subst hc
    exact ⟨rfl, rfl, rfl, rfl, rfl⟩

lemma applyRedaction_all_x (tryM : List Char → Option (List Char))
    (repl : String) (l : List Char)
    (hm : ∀ m : List Char, (∀ c ∈ m, c = 'x') → tryM m = none)
    (hl : ∀ c ∈ l, c = 'x') : applyRedaction tryM repl l = l :=
  replaceScan_no_match tryM repl.data hm l.length l hl

/-- C8 counterexample: 5001 input characters that match none of the patterns
come out 5015 characters long (5000 plus the appended "... (truncated)"
marker), refuting the 5000-character bound; and sanitizing "password=hunter2"
yields "password=***", which itself still contains a substring matching the
password pattern, refuting the no-matching-substring part. -/
theorem sanitize_exceeds_5000_and_residual_match :
    5000 <
        (sanitizeErrorMessage (String.mk (List.replicate 5001 'x'))).length ∧
      sanitizeErrorMessage "password=hunter2" = "password=***" ∧
      containsMatch tryPasswordMatch
        (sanitizeErrorMessage "password=hunter2").data = true := by
  refine ⟨?_, by decide, by decide⟩
  have hx : ∀ c ∈ List.replicate 5001 'x', c = 'x' :=
    fun c hc => List.eq_of_mem_replicate hc
  have hlen : (String.mk (List.replicate 5001 'x')).length = 5001 := by
    rw [length_mk, List.length_replicate]
  rw [sanitizeErrorMessage]
  rw [if_neg (by rw [hlen]; decide)]
  have h1 := applyRedaction_all_x tryPgMatch "postgresql://***:***@***"
    (String.mk (List.replicate 5001 'x')).data
    (fun m hm => (matchers_none_on_x m hm).1) hx
  rw [h1]
  rw [applyRedaction_all_x tryPasswordMatch "password=***" _
    (fun m hm => (matchers_none_on_x m hm).2.1) hx]
  rw [applyRedaction_all_x tryApiMatch "api_key=***" _
    (fun m hm => (matchers_none_on_x m hm).2.2.1) hx]
  rw [applyRedaction_all_x tryAkiaMatch "AKIA***" _
    (fun m hm => (matchers_none_on_x m hm).2.2.2.1) hx]
  rw [applyRedaction_all_x tryJwtMatch "jwt.***" _
    (fun m hm => (matchers_none_on_x m hm).2.2.2.2) hx]
  rw [truncateSanitized]
  rw [if_pos (by rw [List.length_replicate]; decide)]
  rw [length_mk, List.length_append, List.length_take,
    List.length_replicate]
  decide

/-- C8 (amended): the five redactions run in source order, after which a
result over 5000 characters is truncated to 5000 and marked with the
15-character "... (truncated)" suffix: the persisted error text is at most
5015 characters long. The redacted placeholders (such as "password=***")
may themselves still match the patterns, so the output is pattern-free only
with respect to the original credential values, not verbatim. -/
theorem sanitize_length_bound (m : String) :
    (sanitizeErrorMessage m).length ≤ 5015 := by
  have htr : ∀ s5 : List Char, (truncateSanitized s5).length ≤ 5015 := by
    intro s5
    rw [truncateSanitized]
    split
    · rw [length_mk, List.length_append, List.length_take]
      have h15 : ("... (truncated)".data).length = 15 := by decide
      omega
    · rw [length_mk]
      omega
  rw [sanitizeErrorMessage]
  split
  · decide
  · exact htr _

lemma partitionStuck_eq (l : List Row) :
    partitionStuck l =
      (l.filter (fun r => decide (r.attempts < r.max_attempts)),
        (l.filter (fun r => !decide (r.attempts < r.max_attempts))).map
          Row.id) := by
  induction l with
  | nil => rfl
  | cons j rest ih =>
    by_cases hj : j.attempts < j.max_attempts <;>
      simp [partitionStuck, ih, hj]

lemma mem_sel (q : String) (th : Int) (bs : Nat) (now : Int) (t : Table)
    (r : Row) (hr : r ∈ getStuckJobsQuery q th bs now t) :
    r ∈ t ∧ r.queue_name = q ∧ r.status = .processing ∧
      liveness r < now - th := by
  have h1 : r ∈ (t.filter (fun r => r.queue_name == q
      && r.status == Status.processing
      && decide (liveness r < now - th))).insertionSort livenessLE :=
    (List.take_sublist bs _).mem hr
  have h2 := (List.perm_insertionSort livenessLE _).mem_iff.mp h1
  have h3 := List.mem_filter.mp h2
  rcases h3 with ⟨hmem, hcond⟩
  simp only [Bool.and_eq_true, beq_iff_eq, decide_eq_true_eq] at hcond
  exact ⟨hmem, hcond.1.1, hcond.1.2, hcond.2⟩

lemma sel_ids_nodup (q : String) (th : Int) (bs : Nat) (now : Int)
    (t : Table) (hnd : (t.map Row.id).Nodup) :
    ((getStuckJobsQuery q th bs now t).map Row.id).Nodup := by
  have hfil : ((t.filter (fun r => r.queue_name == q
      && r.status == Status.processing
      && decide (liveness r < now - th))).map Row.id).Nodup :=
    hnd.sublist ((List.filter_sublist t).map Row.id)
  have hsort : (((t.filter (fun r => r.queue_name == q
      && r.status == Status.processing
      && decide (liveness r < now - th))).insertionSort
        livenessLE).map Row.id).Nodup :=
    (((List.perm_insertionSort livenessLE _).map Row.id).nodup_iff).mpr hfil
  exact hsort.sublist ((List.take_sublist bs _).map Row.id)

lemma harvest_toRe_subset_sel (q : String) (th : Int) (bs : Nat) (now : Int)
    (t : Table) (i : Nat)
    (hi : i ∈ ((getStuckJobsQuery q th bs now t).filter
      (fun r => decide (r.attempts < r.max_attempts))).map Row.id) :
    i ∈ (getStuckJobsQuery q th bs now t).map Row.id := by
  rcases List.mem_map.mp hi with ⟨a, ha, hai⟩
  exact List.mem_map.mpr ⟨a, (List.mem_filter.mp ha).1, hai⟩

lemma harvest_partition_disjoint (q : String) (th : Int) (bs : Nat)
    (now : Int) (t : Table) (hnd : (t.map Row.id).Nodup) (i : Nat)
    (h1 : i ∈ ((getStuckJobsQuery q th bs now t).filter
      (fun r => decide (r.attempts < r.max_attempts))).map Row.id)
    (h2 : i ∈ ((getStuckJobsQuery q th bs now t).filter
      (fun r => !decide (r.attempts < r.max_attempts))).map Row.id) :
    False := by
  rcases List.mem_map.mp h1 with ⟨a, ha, hai⟩
  rcases List.mem_map.mp h2 with ⟨b, hb, hbi⟩
  rcases List.mem_filter.mp ha with ⟨haMem, haCond⟩
  rcases List.mem_filter.mp hb with ⟨hbMem, hbCond⟩
  have hab : a = b :=
    List.inj_on_of_nodup_map (sel_ids_nodup q th bs now t hnd) haMem hbMem
      (hai.trans hbi.symm)
  subst hab
  rw [haCond] at hbCond
  exact absurd hbCond (by decide)

/-- C1: within one getAndMarkStuckJobs transaction, the selected rows (queue
matches, status 'processing', liveness signal older than the threshold, at
most batchSize of them) are partitioned exactly by attempts — the
to-re-enqueue list is precisely the selected rows with attempts <
max_attempts and the dead-id set precisely the ids of the rest — and in the
table the transaction commits every to-re-enqueue row has status 'stuck'
while every dead-set row has status 'dead' with completed_at set to the
transaction time. (Hypothesis: primary-key ids are unique.) -/
theorem harvest_partition_marks (q : String) (th : Int) (bs : Nat)
    (now : Int) (t : Table) (hnd : (t.map Row.id).Nodup) :
    (getAndMarkStuckJobs q th bs now t).toReEnqueue =
        (getStuckJobsQuery q th bs now t).filter
          (fun r => decide (r.attempts < r.max_attempts)) ∧
      (getAndMarkStuckJobs q th bs now t).deadJobIds =
        ((getStuckJobsQuery q th bs now t).filter
          (fun r => !decide (r.attempts < r.max_attempts))).map Row.id ∧
      (getStuckJobsQuery q th bs now t).length ≤ bs ∧
      (∀ r ∈ getStuckJobsQuery q th bs now t,
        r ∈ t ∧ r.queue_name = q ∧ r.status = .processing ∧
          liveness r < now - th) ∧
      (∀ r ∈ (getAndMarkStuckJobs q th bs now t).toReEnqueue,
        r.attempts < r.max_attempts) ∧
      (∀ r2 ∈ (getAndMarkStuckJobs q th bs now t).table,
        (r2.id ∈ (getAndMarkStuckJobs q th bs now t).toReEnqueue.map Row.id →
          r2.status = .stuck) ∧
        (r2.id ∈ (getAndMarkStuckJobs q th bs now t).deadJobIds →
          r2.status = .dead ∧ r2.completed_at = some now)) := by
  by_cases hemp : getStuckJobsQuery q th bs now t = []
  · refine ⟨by simp [getAndMarkStuckJobs, hemp], by
      simp [getAndMarkStuckJobs, hemp], by simp [hemp], ?_, ?_, ?_⟩
    · intro r hr; rw [hemp] at hr; cases hr
    · intro r hr
      exfalso
      revert hr
      simp [getAndMarkStuckJobs, hemp]
    · intro r2 _
      constructor <;> intro hmem <;> exfalso <;> revert hmem <;>
        simp [getAndMarkStuckJobs, hemp]
  · have hne : ((getStuckJobsQuery q th bs now t).isEmpty) = false := by
      simp [List.isEmpty_iff, hemp]
    have hToRe : (getAndMarkStuckJobs q th bs now t).toReEnqueue =
        (getStuckJobsQuery q th bs now t).filter
          (fun r => decide (r.attempts < r.max_attempts)) := by
      simp [getAndMarkStuckJobs, hne, partitionStuck_eq]
    have hDead : (getAndMarkStuckJobs q th bs now t).deadJobIds =
        ((getStuckJobsQuery q th bs now t).filter
          (fun r => !decide (r.attempts < r.max_attempts))).map Row.id := by
      simp [getAndMarkStuckJobs, hne, partitionStuck_eq]
    have hDeadP : (getAndMarkStuckJobs q th bs now t).deadJobIds =
        (partitionStuck (getStuckJobsQuery q th bs now t)).2 := by
      simp [getAndMarkStuckJobs, hne]
    refine ⟨hToRe, hDead, ?_, ?_, ?_, ?_⟩
    · exact List.length_take_le bs _
    · intro r hr
      exact mem_sel q th bs now t r hr
    · intro r hr
      rw [hToRe] at hr
      simpa using (List.mem_filter.mp hr).2
    · intro r2 hr2
      have htab : (getAndMarkStuckJobs q th bs now t).table =
          if ((partitionStuck (getStuckJobsQuery q th bs now t)).2).isEmpty
          then markAsStuckTable
            ((getStuckJobsQuery q th bs now t).map Row.id) now t
          else bulkMarkDeadTable
            (partitionStuck (getStuckJobsQuery q th bs now t)).2 now
            (markAsStuckTable
              ((getStuckJobsQuery q th bs now t).map Row.id) now t) := by
        simp [getAndMarkStuckJobs, hne]
      rw [htab] at hr2
      constructor
      · intro hmemTo
        rw [hToRe] at hmemTo
        by_cases hdemp :
            ((partitionStuck (getStuckJobsQuery q th bs now t)).2) = []
        · rw [if_pos (by simp [List.isEmpty_iff, hdemp])] at hr2
          simp only [markAsStuckTable] at hr2
          rcases List.mem_map.mp hr2 with ⟨r0, hr0, hr0eq⟩
          have hid : r2.id = r0.id := by rw [← hr0eq]; split <;> rfl
          rw [hid] at hmemTo
          have hsel : r0.id ∈ (getStuckJobsQuery q th bs now t).map Row.id :=
            harvest_toRe_subset_sel q th bs now t r0.id hmemTo
          rw [← hr0eq, if_pos hsel]
        · rw [if_neg (by simp [List.isEmpty_iff, hdemp])] at hr2
          simp only [bulkMarkDeadTable] at hr2
          rcases List.mem_map.mp hr2 with ⟨r1, hr1, hr1eq⟩
          have hid1 : r2.id = r1.id := by rw [← hr1eq]; split <;> rfl
          have hnotDead : r1.id ∉
              (partitionStuck (getStuckJobsQuery q th bs now t)).2 := by
            intro hin
            rw [partitionStuck_eq] at hin
            exact harvest_partition_disjoint q th bs now t hnd r1.id
              (by rw [← hid1]; exact hmemTo) hin
          rw [if_neg hnotDead] at hr1eq
          simp only [markAsStuckTable] at hr1
          rcases List.mem_map.mp hr1 with ⟨r0, hr0, hr0eq⟩
          have hid0 : r1.id = r0.id := by rw [← hr0eq]; split <;> rfl
          have hsel : r0.id ∈ (getStuckJobsQuery q th bs now t).map Row.id :=
            harvest_toRe_subset_sel q th bs now t r0.id
              (by rw [← hid0, ← hid1]; exact hmemTo)
          rw [← hr1eq, ← hr0eq, if_pos hsel]
      · intro hmemDead
        rw [hDeadP] at hmemDead
        have hdemp :
            (partitionStuck (getStuckJobsQuery q th bs now t)).2 ≠ [] :=
          List.ne_nil_of_mem hmemDead
        rw [if_neg (by simp [List.isEmpty_iff, hdemp])] at hr2
        simp only [bulkMarkDeadTable] at hr2
        rcases List.mem_map.mp hr2 with ⟨r1, _, hr1eq⟩
        by_cases hin : r1.id ∈
            (partitionStuck (getStuckJobsQuery q th bs now t)).2
        · rw [if_pos hin] at hr1eq
          rw [← hr1eq]
          exact ⟨rfl, rfl⟩
        · rw [if_neg hin] at hr1eq
          have hid1 : r2.id = r1.id := by rw [← hr1eq]
          rw [hid1] at hmemDead
          exact absurd hmemDead hin

/-- A concrete three-row queue for exercising the harvest: one stale
processing row with attempts left, one stale row out of attempts, and one
fresh row. -/
def harvestTable : Table :=
  [{ id := 1, queue_name := "q", queue_type := .bull, job_id := "a",
     job_name := none, data := "d", status := .processing, attempts := 1,
     max_attempts := 3, error_message := none, created_at := 0,
     updated_at := 100, started_at := some 1, completed_at := none,
     last_heartbeat := none },
   { id := 2, queue_name := "q", queue_type := .bull, job_id := "b",
     job_name := none, data := "d", status := .processing, attempts := 3,
     max_attempts := 3, error_message := none, created_at := 0,
     updated_at := 500, started_at := some 1, completed_at := none,
     last_heartbeat := some 50 },
   { id := 3, queue_name := "q", queue_type := .bull, job_id := "c",
     job_name := none, data := "d", status := .processing, attempts := 0,
     max_attempts := 3, error_message := none, created_at := 0,
     updated_at := 0, started_at := some 1, completed_at := none,
     last_heartbeat := some 900 }]

/-- C1 witness: the harvest theorem applied to the concrete table (the
unique-id hypothesis is discharged by evaluation). -/
theorem harvest_partition_marks_witness :
    (getAndMarkStuckJobs "q" 100 10 1000 harvestTable).toReEnqueue =
        (getStuckJobsQuery "q" 100 10 1000 harvestTable).filter
          (fun r => decide (r.attempts < r.max_attempts)) ∧
      (getAndMarkStuckJobs "q" 100 10 1000 harvestTable).deadJobIds =
        ((getStuckJobsQuery "q" 100 10 1000 harvestTable).filter
          (fun r => !decide (r.attempts < r.max_attempts))).map Row.id :=
  ⟨(harvest_partition_marks "q" 100 10 1000 harvestTable (by decide)).1,
   (harvest_partition_marks "q" 100 10 1000 harvestTable (by decide)).2.1⟩

end JobGuard









